import Mathlib

/-!
# Verification of the Machakos drought-risk / insurance-payout core

Shallow embedding of the algorithmic core of the repository:

* `SatelliteAnalysis.calculate_risk_score` and the risk-level tiering done by
  `SatelliteAnalysis.save` (src/farms/models.py),
* `InsurancePolicy.calculate_payout` (src/farms/models.py),
* `calculate_risk_from_gee` (src/farms/utils/gee_utils.py),
* the rainfall-zone feature extraction of `RainfallZonePredictor`
  (src/rainfall_zone_model/predictor.py) and of
  `RainfallClassificationModel` (src/CLASSIFICATION_MODEL_TRAINER.py),
  together with `_prepare_features`, `select_features` and
  `_get_typical_months`.

Python floats are modelled as exact rationals (`ℚ`); real-valued results that
the code obtains through `sqrt` are represented symbolically (see `FVal`).
Python `int`s that are only ever incremented stay in `ℕ`.
-/

namespace Machakos

/-- A monthly satellite/rainfall reading, as consumed by
`SatelliteAnalysis.calculate_risk_score` (src/farms/models.py).  Each index
may be absent (`None` in the Django model's nullable fields). -/
structure MonthlyIndexReading where
  ndvi : Option ℚ
  rainfall_mm : Option ℚ
  ndmi : Option ℚ
  bsi : Option ℚ

/-- The NDVI branch of `calculate_risk_score`: `if self.ndvi is not None`
followed by the `< 0.2 / < 0.3 / < 0.4 / < 0.6` chain. -/
def ndviScorePoints : Option ℚ → ℕ
  | none => 0
  | some v =>
    if v < 0.2 then 40
    else if v < 0.3 then 30
    else if v < 0.4 then 20
    else if v < 0.6 then 10
    else 0

/-- The rainfall branch of `calculate_risk_score`:
`< 25 / < 50 / < 75` millimetres. -/
def rainfallScorePoints : Option ℚ → ℕ
  | none => 0
  | some v =>
    if v < 25 then 30
    else if v < 50 then 20
    else if v < 75 then 10
    else 0

/-- The NDMI branch of `calculate_risk_score`: `< 0 / < 0.2`. -/
def ndmiScorePoints : Option ℚ → ℕ
  | none => 0
  | some v =>
    if v < 0 then 20
    else if v < 0.2 then 10
    else 0

/-- The BSI branch of `calculate_risk_score`: `> 0.3`. -/
def bsiScorePoints : Option ℚ → ℕ
  | none => 0
  | some v => if v > 0.3 then 10 else 0

/-- `SatelliteAnalysis.calculate_risk_score` (src/farms/models.py):
the four branch contributions are summed and the result is
`min(score, 100)`. -/
def calculate_risk_score (a : MonthlyIndexReading) : ℕ :=
  min (ndviScorePoints a.ndvi + rainfallScorePoints a.rainfall_mm +
       ndmiScorePoints a.ndmi + bsiScorePoints a.bsi) 100

/-- The risk-level tiering performed by `SatelliteAnalysis.save`
(src/farms/models.py): `>= 70 → high`, `>= 40 → moderate`, else `low`. -/
def riskLevelOfScore (score : ℕ) : String :=
  if score ≥ 70 then "high"
  else if score ≥ 40 then "moderate"
  else "low"

/-- The `drought_risk_level` value stored by `SatelliteAnalysis.save`:
the tiering applied to `calculate_risk_score`. -/
def savedRiskLevel (a : MonthlyIndexReading) : String :=
  riskLevelOfScore (calculate_risk_score a)

/-- Spec-side transcription of the risk-score table
("Vegetation index contributes up to 40 points: <0.2 → +40; ...",
spec.md §4.3), written with `Option.elim` so that it is a separate
rendering of the spec's sentence: absent values contribute 0 points,
the sum is capped at 100. -/
def specRiskScore (a : MonthlyIndexReading) : ℕ :=
  min ((a.ndvi.elim 0 fun v =>
          if v < 0.2 then 40 else if v < 0.3 then 30
          else if v < 0.4 then 20 else if v < 0.6 then 10 else 0)
     + (a.rainfall_mm.elim 0 fun v =>
          if v < 25 then 30 else if v < 50 then 20 else if v < 75 then 10 else 0)
     + (a.ndmi.elim 0 fun v =>
          if v < 0 then 20 else if v < 0.2 then 10 else 0)
     + (a.bsi.elim 0 fun v => if v > 0.3 then 10 else 0)) 100

/-- The NDVI `if` chain of `calculate_risk_from_gee`
(src/farms/utils/gee_utils.py) — a textual duplicate of the one in
`SatelliteAnalysis.calculate_risk_score`, embedded separately because the
source duplicates it. -/
def geeNdviPoints : Option ℚ → ℕ
  | none => 0
  | some v =>
    if v < 0.2 then 40
    else if v < 0.3 then 30
    else if v < 0.4 then 20
    else if v < 0.6 then 10
    else 0

/-- The rainfall `if` chain of `calculate_risk_from_gee`. -/
def geeRainfallPoints : Option ℚ → ℕ
  | none => 0
  | some v =>
    if v < 25 then 30
    else if v < 50 then 20
    else if v < 75 then 10
    else 0

/-- The NDMI `if` chain of `calculate_risk_from_gee`. -/
def geeNdmiPoints : Option ℚ → ℕ
  | none => 0
  | some v =>
    if v < 0 then 20
    else if v < 0.2 then 10
    else 0

/-- The BSI `if` chain of `calculate_risk_from_gee`. -/
def geeBsiPoints : Option ℚ → ℕ
  | none => 0
  | some v => if v > 0.3 then 10 else 0

/-- `calculate_risk_from_gee` (src/farms/utils/gee_utils.py): the duplicated
standalone scorer.  The sum is *not* passed through `min(score, 100)`; the
risk level is tiered at 70/40 and returned together with the score. -/
def calculate_risk_from_gee (ndvi rainfall ndmi bsi : Option ℚ) : String × ℕ :=
  let score := geeNdviPoints ndvi + geeRainfallPoints rainfall +
               geeNdmiPoints ndmi + geeBsiPoints bsi
  if score ≥ 70 then ("high", score)
  else if score ≥ 40 then ("moderate", score)
  else ("low", score)

/-- Python's `round` on a value with no ties uses round-half-to-even
(banker's rounding).  `roundHalfEven q` is the integer nearest to `q`,
ties going to the even integer. -/
def roundHalfEven (q : ℚ) : ℤ :=
  if q - ⌊q⌋ < 1/2 then ⌊q⌋
  else if q - ⌊q⌋ > 1/2 then ⌊q⌋ + 1
  else if 2 ∣ ⌊q⌋ then ⌊q⌋ else ⌊q⌋ + 1

/-- `round(x, 2)` of Python, as exact rational rounding to cents. -/
def round2 (q : ℚ) : ℚ := (roundHalfEven (100 * q) : ℚ) / 100

/-- The trigger/payout parameters of `InsurancePolicy` (src/farms/models.py)
that `calculate_payout` reads.  `risk_level_trigger` is a choice field with
choices `"moderate"` and `"high"` (default `"moderate"`); the Decimal fields
(`sum_insured`, `max_payout`, `deductible`) carry two decimal places. -/
structure Policy where
  sum_insured : ℚ
  ndvi_trigger : ℚ
  rainfall_trigger : ℚ
  risk_level_trigger : String
  payout_rate : ℚ
  max_payout : ℚ
  deductible : ℚ

/-- The fields of a `SatelliteAnalysis` that `calculate_payout` reads:
the raw `ndvi` and `rainfall_mm` readings and the stored
`drought_risk_level` string. -/
structure PayoutAnalysis where
  ndvi : Option ℚ
  rainfall_mm : Option ℚ
  drought_risk_level : String

/-- The NDVI trigger block of `InsurancePolicy.calculate_payout`:

```python
if analysis.ndvi and analysis.ndvi < self.ndvi_trigger:
    severity = (self.ndvi_trigger - analysis.ndvi) / self.ndvi_trigger
    payout += float(self.sum_insured) * severity * 0.4
```

Python truthiness: `None` and `0.0` are falsy, so a present value `0.0`
skips the block.  The division raises `ZeroDivisionError` (modelled as
`Except.error ()`) exactly when the block is entered with
`ndvi_trigger = 0`. -/
def ndviTriggerAmount (p : Policy) : Option ℚ → Except Unit ℚ
  | none => Except.ok 0
  | some v =>
    if v ≠ 0 ∧ v < p.ndvi_trigger then
      if p.ndvi_trigger = 0 then Except.error ()
      else Except.ok (p.sum_insured * ((p.ndvi_trigger - v) / p.ndvi_trigger) * 0.4)
    else Except.ok 0

/-- The rainfall trigger block of `InsurancePolicy.calculate_payout`,
identical in shape to the NDVI block (truthiness test included). -/
def rainfallTriggerAmount (p : Policy) : Option ℚ → Except Unit ℚ
  | none => Except.ok 0
  | some v =>
    if v ≠ 0 ∧ v < p.rainfall_trigger then
      if p.rainfall_trigger = 0 then Except.error ()
      else Except.ok (p.sum_insured * ((p.rainfall_trigger - v) / p.rainfall_trigger) * 0.4)
    else Except.ok 0

/-- The risk-level trigger block of `InsurancePolicy.calculate_payout`:
`moderate` fires on a `moderate` or `high` analysis, `high` fires only on
`high`; each adds `sum_insured * 0.2`. -/
def riskTriggerAmount (p : Policy) (level : String) : ℚ :=
  if p.risk_level_trigger = "moderate" ∧ (level = "moderate" ∨ level = "high") then
    p.sum_insured * 0.2
  else if p.risk_level_trigger = "high" ∧ level = "high" then
    p.sum_insured * 0.2
  else 0

/-- The tail of `calculate_payout`:
`payout * payout_rate`, `max(payout - deductible, 0)`,
`min(payout, max_payout)`, `round(payout, 2)`. -/
def clampRound (p : Policy) (raw : ℚ) : ℚ :=
  round2 (min (max (raw * p.payout_rate - p.deductible) 0) p.max_payout)

/-- `InsurancePolicy.calculate_payout` (src/farms/models.py).  `none` for the
analysis models the falsy `analysis` argument (`if not analysis: return 0`).
A `ZeroDivisionError` raised inside a trigger block propagates
(`Except.error`), aborting the computation as in Python. -/
def calculate_payout (p : Policy) : Option PayoutAnalysis → Except Unit ℚ
  | none => Except.ok 0
  | some a =>
    match ndviTriggerAmount p a.ndvi with
    | Except.error e => Except.error e
    | Except.ok amtNdvi =>
      match rainfallTriggerAmount p a.rainfall_mm with
      | Except.error e => Except.error e
      | Except.ok amtRain =>
        Except.ok (clampRound p
          (amtNdvi + amtRain + riskTriggerAmount p a.drought_risk_level))

/-- The spec's Scenario-4 policy, with the one field the scenario leaves
unsaid — `risk_level_trigger` — at the model's default `"moderate"`. -/
def scenario4Policy : Policy :=
  Policy.mk 100000 (3/10) 50 "moderate" (7/10) 50000 1000

/-- The spec's Scenario-4 policy with the only other valid choice of
`risk_level_trigger`, `"high"`. -/
def scenario4PolicyHigh : Policy :=
  Policy.mk 100000 (3/10) 50 "high" (7/10) 50000 1000

/-- The Scenario-4 analysis as `SatelliteAnalysis.save` stores it:
readings `ndvi = 0.15`, `rainfall_mm = 20`, with the stored
`drought_risk_level` obtained from the saved risk score. -/
def scenario4Analysis : PayoutAnalysis :=
  ⟨some (3/20), some 20, savedRiskLevel ⟨some (3/20), some 20, none, none⟩⟩

/-- An exact feature value.  The Python feature dictionaries hold floats;
values produced through `np.std` / pandas `.std()` are square roots, which
are irrational, so a feature value is represented symbolically: either an
exact rational or the square root of a (non-negative) rational.  `toReal`
gives its meaning. -/
inductive FVal where
  | q (x : ℚ)
  | sqrtOf (x : ℚ)
deriving DecidableEq

/-- The real number an `FVal` denotes. -/
noncomputable def FVal.toReal : FVal → ℝ
  | FVal.q x => (x : ℝ)
  | FVal.sqrtOf x => Real.sqrt (x : ℝ)

/-- `np.mean` / pandas `.mean()`: sum divided by length. -/
def listMean (r : List ℚ) : ℚ := r.sum / r.length

/-- The square of `np.std(r)` (population variance, `ddof = 0`):
mean squared deviation, denominator `n`. -/
def popVar (r : List ℚ) : ℚ :=
  (r.map (fun x => (x - listMean r) ^ 2)).sum / r.length

/-- The square of pandas `Series.std(r)` (sample variance, `ddof = 1`):
sum of squared deviations, denominator `n - 1`. -/
def sampVar (r : List ℚ) : ℚ :=
  (r.map (fun x => (x - listMean r) ^ 2)).sum / ((r.length : ℚ) - 1)

/-- The dry-spell scan shared verbatim by
`RainfallZonePredictor._calculate_features` and
`RainfallClassificationModel._calculate_location_features`: walk the
series, counting runs of consecutive zero readings; each finished run's
length is appended, and a run still open at the end is appended too. -/
def drySpellsAux : List ℚ → ℕ → List ℕ
  | [], current => if current > 0 then [current] else []
  | rain :: rest, current =>
    if rain = 0 then drySpellsAux rest (current + 1)
    else (if current > 0 then [current] else []) ++ drySpellsAux rest 0

/-- The list of dry-spell lengths of a series. -/
def drySpells (r : List ℚ) : List ℕ := drySpellsAux r 0

/-- `max(dry_spells) if dry_spells else 0`, as both sources compute it. -/
def maxDrySpell (r : List ℚ) : ℕ := (drySpells r).foldl max 0

/-- pandas `Series.median()`: sort, take the middle element, or the mean of
the two middle elements for an even count. -/
def listMedian (r : List ℚ) : ℚ :=
  let s := r.mergeSort (· ≤ ·)
  if s.length = 0 then 0
  else if s.length % 2 = 1 then s.getD (s.length / 2) 0
  else (s.getD (s.length / 2 - 1) 0 + s.getD (s.length / 2) 0) / 2

/-- The features `RainfallZonePredictor._calculate_features`
(src/rainfall_zone_model/predictor.py) computes from the monthly rainfall
list: `np.sum`, `np.mean`, `np.std` (population, `ddof = 0`),
`cv = std/mean` when `mean > 0` else `0.0` (for `mean > 0`,
`std/mean = √(var/mean²)`, which is how the quotient is represented),
`rainy_days_percent = len(rainfall[rainfall > 0]) / 12 * 100`,
`max_dry_spell`, and the raw monthly values as `month_i_mean`. -/
structure PredictorFeatures where
  total_rainfall : ℚ
  mean_rainfall : ℚ
  std_rainfall : FVal
  cv_rainfall : FVal
  rainy_days_percent : ℚ
  max_dry_spell : ℕ
  month_means : List ℚ
deriving DecidableEq

def predictorCalcFeatures (r : List ℚ) : PredictorFeatures :=
  { total_rainfall := r.sum
    mean_rainfall := listMean r
    std_rainfall := FVal.sqrtOf (popVar r)
    cv_rainfall :=
      if listMean r > 0 then FVal.sqrtOf (popVar r / (listMean r) ^ 2)
      else FVal.q 0
    rainy_days_percent := ((r.filter (fun x => decide (0 < x))).length : ℚ) / 12 * 100
    max_dry_spell := maxDrySpell r
    month_means := r }

/-- The features `RainfallClassificationModel._calculate_location_features`
(src/CLASSIFICATION_MODEL_TRAINER.py) computes for a single location's
series (here a single-year series, so `group['rainfall_mm']` is the same
12-value list): pandas `sum/mean/median`, pandas `.std()` (sample,
`ddof = 1`; the model assumes at least two observations, where pandas
returns a number rather than `NaN`), `cv = std/mean` when `mean > 0` else
`0`, rainy-day count/percent/intensity, and the dry-spell metrics. -/
structure TrainerLocationFeatures where
  total_rainfall : ℚ
  mean_rainfall : ℚ
  median_rainfall : ℚ
  std_rainfall : FVal
  cv_rainfall : FVal
  rainy_days_count : ℕ
  rainy_days_percent : ℚ
  mean_rainy_day_intensity : ℚ
  max_dry_spell : ℕ
  avg_dry_spell : ℚ
  dry_spell_frequency : ℚ
deriving DecidableEq

def trainerLocationFeatures (r : List ℚ) : TrainerLocationFeatures :=
  let rainy := r.filter (fun x => decide (0 < x))
  { total_rainfall := r.sum
    mean_rainfall := listMean r
    median_rainfall := listMedian r
    std_rainfall := FVal.sqrtOf (sampVar r)
    cv_rainfall :=
      if listMean r > 0 then FVal.sqrtOf (sampVar r / (listMean r) ^ 2)
      else FVal.q 0
    rainy_days_count := rainy.length
    rainy_days_percent :=
      if 0 < r.length then ((rainy.length : ℚ) / r.length) * 100 else 0
    mean_rainy_day_intensity := if 0 < rainy.length then listMean rainy else 0
    max_dry_spell := maxDrySpell r
    avg_dry_spell :=
      if 0 < (drySpells r).length
      then (((drySpells r).map (fun n => (n : ℚ))).sum / (drySpells r).length)
      else 0
    dry_spell_frequency :=
      if 0 < r.length then ((drySpells r).length : ℚ) / r.length else 0 }

/-- The feature dictionary built by
`RainfallZonePredictor._calculate_features`, keyed as in the source:
the six named statistics followed by `month_{i}_mean` for each of the
twelve monthly values (`enumerate(rainfall, 1)`). -/
def predictorFeatureDict (r : List ℚ) : List (String × FVal) :=
  let f := predictorCalcFeatures r
  [("total_rainfall", FVal.q f.total_rainfall),
   ("mean_rainfall", FVal.q f.mean_rainfall),
   ("std_rainfall", f.std_rainfall),
   ("cv_rainfall", f.cv_rainfall),
   ("rainy_days_percent", FVal.q f.rainy_days_percent),
   ("max_dry_spell", FVal.q (f.max_dry_spell : ℚ))]
  ++ r.enum.map (fun p => ("month_" ++ toString (p.1 + 1) ++ "_mean", FVal.q p.2))

/-- `RainfallZonePredictor._prepare_features`
(src/rainfall_zone_model/predictor.py):

```python
vector = []
for name in self.feature_names:
    vector.append(features.get(name, 0.0))
return vector
```

A name absent from the computed feature dictionary is silently replaced by
`0.0` — the function is total and has no failure path. -/
def prepare_features (features : List (String × FVal)) (names : List String) : List FVal :=
  names.map (fun n => (features.lookup n).getD (FVal.q 0))

/-- The feature list selected by `RainfallClassificationModel.select_features`
(src/CLASSIFICATION_MODEL_TRAINER.py): eight location statistics plus the
critical months 11, 12, 6.  The final filter `[f for f in selected if f in
features_df.columns]` keeps all of them, because the training frame contains
every one of these columns. -/
def select_features_names : List String :=
  ["total_rainfall", "mean_rainfall", "cv_rainfall",
   "rainy_days_percent", "mean_rainy_day_intensity",
   "max_dry_spell", "avg_dry_spell", "dry_spell_frequency",
   "month_11_mean", "month_12_mean", "month_6_mean"]

/-- The per-month classification inside
`RainfallClassificationModel._get_typical_months`
(src/CLASSIFICATION_MODEL_TRAINER.py):

```python
month_avg = cluster_data[col].mean()
if month_avg > cluster_data[col].mean() * 1.2:   typical[month] = 'Wet'
elif month_avg < cluster_data[col].mean() * 0.8: typical[month] = 'Dry'
else:                                            typical[month] = 'Normal'
```

Both sides of each comparison are the *same* column mean, so the value is
compared against 1.2 and 0.8 times itself. -/
def typical_month_label (month_avg : ℚ) : String :=
  if month_avg > month_avg * 1.2 then "Wet"
  else if month_avg < month_avg * 0.8 then "Dry"
  else "Normal"

/-- `_get_typical_months` over a zone's vector of per-month means. -/
def get_typical_months (monthMeans : List ℚ) : List String :=
  monthMeans.map typical_month_label

/-- The spec's rule for the same classification ("classify it `Wet` if that
zone's monthly mean exceeds 1.2× the zone's own overall monthly mean,
`Dry` if below 0.8×, else `Normal`"), with the overall monthly mean as an
explicit first argument. -/
def specTypicalLabel (overall month_avg : ℚ) : String :=
  if month_avg > overall * 1.2 then "Wet"
  else if month_avg < overall * 0.8 then "Dry"
  else "Normal"

theorem ndviScorePoints_le (o : Option ℚ) : ndviScorePoints o ≤ 40 := by
  cases o with
  | none => simp [ndviScorePoints]
  | some v => simp only [ndviScorePoints]; split_ifs <;> omega

theorem rainfallScorePoints_le (o : Option ℚ) : rainfallScorePoints o ≤ 30 := by
  cases o with
  | none => simp [rainfallScorePoints]
  | some v => simp only [rainfallScorePoints]; split_ifs <;> omega

theorem ndmiScorePoints_le (o : Option ℚ) : ndmiScorePoints o ≤ 20 := by
  cases o with
  | none => simp [ndmiScorePoints]
  | some v => simp only [ndmiScorePoints]; split_ifs <;> omega

theorem bsiScorePoints_le (o : Option ℚ) : bsiScorePoints o ≤ 10 := by
  cases o with
  | none => simp [bsiScorePoints]
  | some v => simp only [bsiScorePoints]; split_ifs <;> omega

/-- C1: `calculate_risk_score` realises exactly the 40/30/20/10-point
table of the spec (absent inputs contributing 0, sum capped at 100), and the
category stored by `save` is `high` for score ≥ 70, `moderate` for ≥ 40,
else `low`. -/
theorem c1_risk_score_table (a : MonthlyIndexReading) :
    calculate_risk_score a = specRiskScore a ∧
    savedRiskLevel a =
      (if 70 ≤ calculate_risk_score a then "high"
       else if 40 ≤ calculate_risk_score a then "moderate" else "low") := by
  refine ⟨?_, rfl⟩
  rcases a with ⟨n, r, m, b⟩
  cases n <;> cases r <;> cases m <;> cases b <;> rfl

/-- C5: The risk score is always at most 100 (it is a `ℕ`, hence also
nonnegative), and the all-absent reading scores 0. -/
theorem c5_risk_score_bounded :
    (∀ a : MonthlyIndexReading, calculate_risk_score a ≤ 100) ∧
    calculate_risk_score ⟨none, none, none, none⟩ = 0 := by
  constructor
  · intro a; exact min_le_right _ _
  · rfl

theorem ndviScorePoints_antitone {x y : ℚ} (h : x ≤ y) :
    ndviScorePoints (some y) ≤ ndviScorePoints (some x) := by
  simp only [ndviScorePoints]
  split_ifs <;> first | omega | (exfalso; linarith)

theorem rainfallScorePoints_antitone {x y : ℚ} (h : x ≤ y) :
    rainfallScorePoints (some y) ≤ rainfallScorePoints (some x) := by
  simp only [rainfallScorePoints]
  split_ifs <;> first | omega | (exfalso; linarith)

theorem ndmiScorePoints_antitone {x y : ℚ} (h : x ≤ y) :
    ndmiScorePoints (some y) ≤ ndmiScorePoints (some x) := by
  simp only [ndmiScorePoints]
  split_ifs <;> first | omega | (exfalso; linarith)

/-- C8: Holding the other inputs fixed, `calculate_risk_score` is
monotonically non-increasing in each of the present values of `ndvi`,
`rainfall_mm` and `ndmi`: for `x ≤ y`, putting `y` in the slot yields a
score no larger than putting `x` there. -/
theorem c8_risk_score_antitone (a : MonthlyIndexReading) (x y : ℚ) (h : x ≤ y) :
    calculate_risk_score { a with ndvi := some y } ≤
      calculate_risk_score { a with ndvi := some x } ∧
    calculate_risk_score { a with rainfall_mm := some y } ≤
      calculate_risk_score { a with rainfall_mm := some x } ∧
    calculate_risk_score { a with ndmi := some y } ≤
      calculate_risk_score { a with ndmi := some x } := by
  refine ⟨?_, ?_, ?_⟩ <;>
    · simp only [calculate_risk_score]
      refine min_le_min (by
        first
        | exact Nat.add_le_add (Nat.add_le_add (Nat.add_le_add
            (ndviScorePoints_antitone h) le_rfl) le_rfl) le_rfl
        | exact Nat.add_le_add (Nat.add_le_add (Nat.add_le_add
            le_rfl (rainfallScorePoints_antitone h)) le_rfl) le_rfl
        | exact Nat.add_le_add (Nat.add_le_add (Nat.add_le_add
            le_rfl le_rfl) (ndmiScorePoints_antitone h)) le_rfl) le_rfl

/-- Witness for C8 at a concrete reading and pair of values. -/
theorem c8_risk_score_antitone_witness :
    calculate_risk_score { ndvi := some 0.35, rainfall_mm := some 30,
                           ndmi := some 0.1, bsi := some 0.5 } ≤
      calculate_risk_score { ndvi := some 0.15, rainfall_mm := some 30,
                             ndmi := some 0.1, bsi := some 0.5 } ∧
    calculate_risk_score { ndvi := some 0.25, rainfall_mm := some 30,
                           ndmi := some 0.1, bsi := some 0.5 } ≤
      calculate_risk_score { ndvi := some 0.25, rainfall_mm := some 30,
                             ndmi := some 0.1, bsi := some 0.5 } ∧
    calculate_risk_score { ndvi := some 0.25, rainfall_mm := some 30,
                           ndmi := some 0.1, bsi := some 0.5 } ≤
      calculate_risk_score { ndvi := some 0.25, rainfall_mm := some 30,
                             ndmi := some 0.1, bsi := some 0.5 } := by
  have h := c8_risk_score_antitone
    { ndvi := some 0.25, rainfall_mm := some 30, ndmi := some 0.1, bsi := some 0.5 }
    0.15 0.35 (by norm_num)
  exact ⟨h.1, le_rfl, le_rfl⟩

/-- C10: The standalone scorer `calculate_risk_from_gee` is extensionally
equal to the model's scorer: its score equals
`SatelliteAnalysis.calculate_risk_score` on the same four inputs, and its
level equals the 70/40 tiering that `SatelliteAnalysis.save` stores. -/
theorem c10_gee_scorer_equivalent (ndvi rainfall ndmi bsi : Option ℚ) :
    calculate_risk_from_gee ndvi rainfall ndmi bsi =
      (savedRiskLevel ⟨ndvi, rainfall, ndmi, bsi⟩,
       calculate_risk_score ⟨ndvi, rainfall, ndmi, bsi⟩) := by
  have e1 : geeNdviPoints ndvi = ndviScorePoints ndvi := by cases ndvi <;> rfl
  have e2 : geeRainfallPoints rainfall = rainfallScorePoints rainfall := by
    cases rainfall <;> rfl
  have e3 : geeNdmiPoints ndmi = ndmiScorePoints ndmi := by cases ndmi <;> rfl
  have e4 : geeBsiPoints bsi = bsiScorePoints bsi := by cases bsi <;> rfl
  have hsum :
      ndviScorePoints ndvi + rainfallScorePoints rainfall +
        ndmiScorePoints ndmi + bsiScorePoints bsi ≤ 100 := by
    have h1 := ndviScorePoints_le ndvi
    have h2 := rainfallScorePoints_le rainfall
    have h3 := ndmiScorePoints_le ndmi
    have h4 := bsiScorePoints_le bsi
    omega
  have hscore :
      calculate_risk_score ⟨ndvi, rainfall, ndmi, bsi⟩ =
        ndviScorePoints ndvi + rainfallScorePoints rainfall +
          ndmiScorePoints ndmi + bsiScorePoints bsi :=
    min_eq_left hsum
  simp only [calculate_risk_from_gee, savedRiskLevel, riskLevelOfScore,
    hscore, e1, e2, e3, e4]
  split_ifs <;> rfl

theorem roundHalfEven_intCast (n : ℤ) : roundHalfEven (n : ℚ) = n := by
  unfold roundHalfEven
  rw [Int.floor_intCast]
  have h : (n : ℚ) - n = 0 := sub_self _
  rw [h]
  norm_num

theorem roundHalfEven_mono {q r : ℚ} (h : q ≤ r) :
    roundHalfEven q ≤ roundHalfEven r := by
  have hf : ⌊q⌋ ≤ ⌊r⌋ := Int.floor_le_floor h
  rcases lt_or_eq_of_le hf with hl | he
  · unfold roundHalfEven
    split_ifs <;> omega
  · have h1 : q - ⌊q⌋ ≤ r - ⌊r⌋ := by
      have : ((⌊q⌋ : ℚ)) = ((⌊r⌋ : ℚ)) := by exact_mod_cast he
      linarith
    unfold roundHalfEven
    split_ifs <;> first | omega | (exfalso; linarith)

theorem round2_mono {q r : ℚ} (h : q ≤ r) : round2 q ≤ round2 r := by
  unfold round2
  have hm : roundHalfEven (100 * q) ≤ roundHalfEven (100 * r) :=
    roundHalfEven_mono (by linarith)
  have hm' : ((roundHalfEven (100 * q) : ℚ)) ≤ (roundHalfEven (100 * r) : ℚ) := by
    exact_mod_cast hm
  have h100 : (0:ℚ) < 100 := by norm_num
  exact (div_le_div_iff_of_pos_right h100).mpr hm'

theorem round2_cents (k : ℤ) : round2 ((k : ℚ) / 100) = (k : ℚ) / 100 := by
  unfold round2
  have h : (100 : ℚ) * ((k : ℚ) / 100) = (k : ℚ) := by field_simp
  rw [h, roundHalfEven_intCast]

theorem round2_zero : round2 0 = 0 := by
  have h := round2_cents 0
  simpa using h

theorem round2_intCast (n : ℤ) : round2 (n : ℚ) = n := by
  unfold round2
  have h : (100 : ℚ) * (n : ℚ) = ((100 * n : ℤ) : ℚ) := by push_cast; ring
  rw [h, roundHalfEven_intCast]
  push_cast
  field_simp

theorem clampRound_nonneg {p : Policy} (hmp : 0 ≤ p.max_payout) (raw : ℚ) :
    0 ≤ clampRound p raw := by
  unfold clampRound
  have h0 : 0 ≤ min (max (raw * p.payout_rate - p.deductible) 0) p.max_payout :=
    le_min (le_max_right _ _) hmp
  calc (0:ℚ) = round2 0 := round2_zero.symm
  _ ≤ _ := round2_mono h0

theorem clampRound_le_cap {p : Policy} (k : ℤ) (hmp : p.max_payout = (k : ℚ) / 100)
    (raw : ℚ) : clampRound p raw ≤ p.max_payout := by
  unfold clampRound
  calc round2 (min (max (raw * p.payout_rate - p.deductible) 0) p.max_payout)
      ≤ round2 p.max_payout := round2_mono (min_le_right _ _)
  _ = p.max_payout := by rw [hmp, round2_cents]

/-- C2 (amended): For every policy whose `max_payout` is a non-negative
whole number of cents and whose `deductible` is non-negative, and every
analysis on which `calculate_payout` returns at all (a zero trigger
denominator together with a present negative reading raises
`ZeroDivisionError` instead of returning), the returned payout is never
negative and never above `max_payout`; it is 0 when the analysis is absent,
and 0 when no trigger condition fires. -/
theorem c2_payout_bounded (p : Policy) (k : ℤ) (hk : 0 ≤ k)
    (hmp : p.max_payout = (k : ℚ) / 100) (hd : 0 ≤ p.deductible) :
    (∀ (a : Option PayoutAnalysis) (v : ℚ),
        calculate_payout p a = Except.ok v → 0 ≤ v ∧ v ≤ p.max_payout)
    ∧ calculate_payout p none = Except.ok 0
    ∧ (∀ a : PayoutAnalysis,
        ndviTriggerAmount p a.ndvi = Except.ok 0 →
        rainfallTriggerAmount p a.rainfall_mm = Except.ok 0 →
        riskTriggerAmount p a.drought_risk_level = 0 →
        calculate_payout p (some a) = Except.ok 0) := by
  have hmp0 : 0 ≤ p.max_payout := by
    rw [hmp]
    positivity
  refine ⟨?_, rfl, ?_⟩
  · intro a v h
    cases a with
    | none =>
      simp only [calculate_payout, Except.ok.injEq] at h
      subst h
      exact ⟨le_refl 0, hmp0⟩
    | some a =>
      cases hn : ndviTriggerAmount p a.ndvi with
      | error e => simp [calculate_payout, hn] at h
      | ok amtNdvi =>
        cases hr : rainfallTriggerAmount p a.rainfall_mm with
        | error e => simp [calculate_payout, hn, hr] at h
        | ok amtRain =>
          simp only [calculate_payout, hn, hr, Except.ok.injEq] at h
          subst h
          exact ⟨clampRound_nonneg hmp0 _, clampRound_le_cap k hmp _⟩
  · intro a h1 h2 h3
    simp only [calculate_payout, h1, h2, h3, Except.ok.injEq]
    unfold clampRound
    have hz : ((0:ℚ) + 0 + 0) * p.payout_rate - p.deductible = -p.deductible := by
      ring
    rw [hz, max_eq_right (neg_nonpos.mpr hd), min_eq_left hmp0, round2_zero]

/-- Witness for C2 at a concrete policy (the spec's Scenario-4 parameters),
checking the absent-analysis case, the bound on its returned value, and the
no-trigger case. -/
theorem c2_payout_bounded_witness :
    ((0:ℚ) ≤ 0 ∧ (0:ℚ) ≤ (Policy.mk 100000 (3/10) 50 "moderate" (7/10) 50000 1000).max_payout)
    ∧ calculate_payout (Policy.mk 100000 (3/10) 50 "moderate" (7/10) 50000 1000) none
        = Except.ok 0
    ∧ calculate_payout (Policy.mk 100000 (3/10) 50 "moderate" (7/10) 50000 1000)
        (some ⟨none, none, "low"⟩) = Except.ok 0 := by
  have h := c2_payout_bounded (Policy.mk 100000 (3/10) 50 "moderate" (7/10) 50000 1000)
    5000000 (by norm_num) (by norm_num) (by norm_num)
  exact ⟨h.1 none 0 rfl, h.2.1,
    h.2.2 ⟨none, none, "low"⟩ rfl rfl (by simp [riskTriggerAmount])⟩

/-- C2 (counterexample): With the malformed trigger `ndvi_trigger = 0`
that the claim itself names, and a present negative NDVI reading (a valid
NDVI value), `calculate_payout` raises `ZeroDivisionError` — the division is
*not* guarded — so it does not return a value at all. -/
theorem c2_counterexample :
    calculate_payout (Policy.mk 100000 0 50 "moderate" (7/10) 50000 1000)
      (some ⟨some (-1/10), none, "low"⟩) = Except.error () := by
  have hn : ndviTriggerAmount (Policy.mk 100000 0 50 "moderate" (7/10) 50000 1000)
      (some (-1/10)) = Except.error () := by
    unfold ndviTriggerAmount
    norm_num
  simp [calculate_payout, hn]

/-- C3 (code bug): The trigger conditions use Python truthiness
(`if analysis.ndvi and ...`), so a *present* reading of exactly `0.0` —
falsy in Python — is skipped even though it is strictly below a positive
trigger.  Both contributions evaluate to 0 at a present `0.0`, and the
end-to-end payout for a policy with `sum_insured = 100000`,
`ndvi_trigger = 0.3`, `payout_rate = 1`, no deductible, risk-level trigger
`high`, applied to a saved analysis whose only reading is `ndvi = 0.0`
(stored level `moderate`), is 0 instead of the
`100000 × ((0.3 − 0)/0.3) × 0.4 = 40000` the spec requires. -/
theorem c3_zero_reading_skipped :
    ndviTriggerAmount (Policy.mk 100000 (3/10) 50 "high" 1 1000000 0) (some 0)
      = Except.ok 0
    ∧ rainfallTriggerAmount (Policy.mk 100000 (3/10) 50 "high" 1 1000000 0) (some 0)
      = Except.ok 0
    ∧ (0 : ℚ) < (Policy.mk 100000 (3/10) 50 "high" 1 1000000 0).ndvi_trigger
    ∧ (0 : ℚ) < (Policy.mk 100000 (3/10) 50 "high" 1 1000000 0).rainfall_trigger
    ∧ savedRiskLevel ⟨some 0, none, none, none⟩ = "moderate"
    ∧ calculate_payout (Policy.mk 100000 (3/10) 50 "high" 1 1000000 0)
        (some ⟨some 0, none, savedRiskLevel ⟨some 0, none, none, none⟩⟩)
      = Except.ok 0
    ∧ (100000 : ℚ) * (((3/10) - 0) / (3/10)) * 0.4 = 40000 := by
  have hn : ndviTriggerAmount (Policy.mk 100000 (3/10) 50 "high" 1 1000000 0) (some 0)
      = Except.ok 0 := by
    unfold ndviTriggerAmount
    norm_num
  have hr0 : rainfallTriggerAmount (Policy.mk 100000 (3/10) 50 "high" 1 1000000 0) (some 0)
      = Except.ok 0 := by
    unfold rainfallTriggerAmount
    norm_num
  have hrnone : rainfallTriggerAmount (Policy.mk 100000 (3/10) 50 "high" 1 1000000 0) none
      = Except.ok 0 := rfl
  have hlevel : savedRiskLevel ⟨some 0, none, none, none⟩ = "moderate" := by
    norm_num [savedRiskLevel, calculate_risk_score, riskLevelOfScore,
      ndviScorePoints, rainfallScorePoints, ndmiScorePoints, bsiScorePoints]
  have hrisk : riskTriggerAmount (Policy.mk 100000 (3/10) 50 "high" 1 1000000 0)
      "moderate" = 0 := by
    simp [riskTriggerAmount]
  have hclamp : clampRound (Policy.mk 100000 (3/10) 50 "high" 1 1000000 0)
      ((0:ℚ) + 0 + 0) = 0 := by
    unfold clampRound
    norm_num [round2_zero]
  refine ⟨hn, hr0, by norm_num, by norm_num, hlevel, ?_, by norm_num⟩
  simp only [calculate_payout, hn, hrnone, hlevel, hrisk, hclamp]

theorem scenario4_level : savedRiskLevel ⟨some (3/20), some 20, none, none⟩ = "high" := by
  norm_num [savedRiskLevel, calculate_risk_score, riskLevelOfScore,
    ndviScorePoints, rainfallScorePoints, ndmiScorePoints, bsiScorePoints]

theorem scenario4_payout (p : Policy) (hp : p = scenario4Policy ∨ p = scenario4PolicyHigh) :
    calculate_payout p (some scenario4Analysis) = Except.ok 43800 := by
  have hrisk : riskTriggerAmount p "high" = 20000 := by
    rcases hp with h | h <;> subst h <;>
      · simp [riskTriggerAmount, scenario4Policy, scenario4PolicyHigh]
        norm_num
  have hfields : p.sum_insured = 100000 ∧ p.ndvi_trigger = 3/10 ∧
      p.rainfall_trigger = 50 ∧ p.payout_rate = 7/10 ∧ p.max_payout = 50000 ∧
      p.deductible = 1000 := by
    rcases hp with h | h <;> subst h <;>
      exact ⟨rfl, rfl, rfl, rfl, rfl, rfl⟩
  obtain ⟨hs, hnt, hrt, hpr, hmp, hdd⟩ := hfields
  have hn : ndviTriggerAmount p (some (3/20)) = Except.ok 20000 := by
    unfold ndviTriggerAmount
    rw [hnt, hs]
    norm_num
  have hr : rainfallTriggerAmount p (some 20) = Except.ok 24000 := by
    unfold rainfallTriggerAmount
    rw [hrt, hs]
    norm_num
  have hclamp : clampRound p ((20000 : ℚ) + 24000 + 20000) = 43800 := by
    unfold clampRound
    rw [hpr, hdd, hmp]
    have harg : ((20000 : ℚ) + 24000 + 20000) * (7/10) - 1000 = 43800 := by norm_num
    rw [harg]
    rw [max_eq_left (by norm_num), min_eq_left (by norm_num)]
    have h := round2_intCast 43800
    norm_num at h
    exact h
  simp only [calculate_payout, scenario4Analysis, hn, hr, scenario4_level, hrisk, hclamp]

/-- C4 (counterexample): With the scenario's parameters and the model's
`risk_level_trigger` choices (`moderate`, the default, or `high`), the saved
Scenario-4 analysis scores 70 and is stored as `high` risk, so the
risk-level trigger also fires; `calculate_payout` returns 43800.00, not the
29800.00 the spec computes. -/
theorem c4_counterexample :
    calculate_payout scenario4Policy (some scenario4Analysis) ≠ Except.ok (29800 : ℚ)
    ∧ calculate_payout scenario4PolicyHigh (some scenario4Analysis)
        ≠ Except.ok (29800 : ℚ) := by
  constructor
  · rw [scenario4_payout scenario4Policy (Or.inl rfl)]
    simp
  · rw [scenario4_payout scenario4PolicyHigh (Or.inr rfl)]
    simp

/-- C4 (amended): On the Scenario-4 policy (under either valid
`risk_level_trigger` choice) and the saved Scenario-4 analysis,
`calculate_payout` returns exactly 43800.00: NDVI contribution 20000 plus
rainfall contribution 24000 plus the risk-level contribution 20000 (the
stored level is `high`), times 0.7, minus the 1000 deductible, under the
cap. -/
theorem c4_scenario_payout :
    calculate_payout scenario4Policy (some scenario4Analysis) = Except.ok 43800
    ∧ calculate_payout scenario4PolicyHigh (some scenario4Analysis)
        = Except.ok 43800 :=
  ⟨scenario4_payout scenario4Policy (Or.inl rfl),
   scenario4_payout scenario4PolicyHigh (Or.inr rfl)⟩

/-- C9 (code bug): `_get_typical_months` compares each month's mean against
1.2/0.8 times *itself* (not the zone's overall monthly mean), so every
month of non-negative mean rainfall is labelled `Normal`.  On a zone whose
January mean (100) far exceeds 1.2× its overall monthly mean (650/12 ≈
54.2), the code still answers `Normal` where the spec's rule answers
`Wet`. -/
theorem c9_typical_months_all_normal :
    (∀ m : ℚ, 0 ≤ m → typical_month_label m = "Normal")
    ∧ get_typical_months [100, 50, 50, 50, 50, 50, 50, 50, 50, 50, 50, 50]
      = ["Normal", "Normal", "Normal", "Normal", "Normal", "Normal",
         "Normal", "Normal", "Normal", "Normal", "Normal", "Normal"]
    ∧ specTypicalLabel (listMean [100, 50, 50, 50, 50, 50, 50, 50, 50, 50, 50, 50]) 100
      = "Wet" := by
  have hgen : ∀ m : ℚ, 0 ≤ m → typical_month_label m = "Normal" := by
    intro m hm
    unfold typical_month_label
    split_ifs with h1 h2
    · exfalso; nlinarith
    · exfalso; nlinarith
    · rfl
  refine ⟨hgen, ?_, ?_⟩
  · have h100 := hgen 100 (by norm_num)
    have h50 := hgen 50 (by norm_num)
    simp [get_typical_months, h100, h50]
  · have hmean : listMean [100, 50, 50, 50, 50, 50, 50, 50, 50, 50, 50, 50]
        = 325/6 := by
      norm_num [listMean]
    rw [hmean]
    norm_num [specTypicalLabel]

/-- Witness for the universally quantified part of C9's theorem at a
concrete month mean. -/
theorem c9_typical_months_witness : typical_month_label 42 = "Normal" :=
  c9_typical_months_all_normal.1 42 (by norm_num)

/-- C7 (counterexample): the predictor's `std_rainfall` uses `np.std`
(population standard deviation, `ddof = 0`) while the trainer's uses pandas
`.std()` (sample standard deviation, `ddof = 1`).  On the single-year
series `[1, 0, …, 0]` the predictor computes `√(11/144)` and the trainer
`√(1/12)`, different real numbers — so the §4.1 feature logic is *not*
reused exactly. -/
theorem c7_std_divergence :
    FVal.toReal (predictorCalcFeatures [1, 0, 0, 0, 0, 0, 0, 0, 0, 0, 0, 0]).std_rainfall
      ≠ FVal.toReal
          (trainerLocationFeatures [1, 0, 0, 0, 0, 0, 0, 0, 0, 0, 0, 0]).std_rainfall := by
  have hp : (predictorCalcFeatures [1, 0, 0, 0, 0, 0, 0, 0, 0, 0, 0, 0]).std_rainfall
      = FVal.sqrtOf (11/144) := by
    show FVal.sqrtOf (popVar [1, 0, 0, 0, 0, 0, 0, 0, 0, 0, 0, 0]) = _
    rw [show popVar [1, 0, 0, 0, 0, 0, 0, 0, 0, 0, 0, 0] = 11/144 from by
      norm_num [popVar, listMean]]
  have ht : (trainerLocationFeatures [1, 0, 0, 0, 0, 0, 0, 0, 0, 0, 0, 0]).std_rainfall
      = FVal.sqrtOf (1/12) := by
    show FVal.sqrtOf (sampVar [1, 0, 0, 0, 0, 0, 0, 0, 0, 0, 0, 0]) = _
    rw [show sampVar [1, 0, 0, 0, 0, 0, 0, 0, 0, 0, 0, 0] = 1/12 from by
      norm_num [sampVar, listMean]]
  rw [hp, ht]
  simp only [FVal.toReal]
  have hlt : (((11:ℚ)/144 : ℚ) : ℝ) < (((1:ℚ)/12 : ℚ) : ℝ) := by
    push_cast
    norm_num
  have h0 : (0:ℝ) ≤ (((11:ℚ)/144 : ℚ) : ℝ) := by
    push_cast
    norm_num
  exact ne_of_lt (Real.sqrt_lt_sqrt h0 hlt)

/-- C7 (amended): on any 12-value monthly series, the inference-time
features of `RainfallZonePredictor._calculate_features` agree with the
trainer's `_calculate_location_features` on the names both sides compute
*except* the standard deviation and its derived coefficient of variation:
`total_rainfall`, `mean_rainfall`, `rainy_days_percent` and `max_dry_spell`
coincide (the divergence of `std_rainfall`/`cv_rainfall` is
`c7_std_divergence`; `month_i_mean` is not produced by
`_calculate_location_features`). -/
theorem c7_features_agree (r : List ℚ) (h : r.length = 12) :
    (predictorCalcFeatures r).total_rainfall
      = (trainerLocationFeatures r).total_rainfall
    ∧ (predictorCalcFeatures r).mean_rainfall
      = (trainerLocationFeatures r).mean_rainfall
    ∧ (predictorCalcFeatures r).rainy_days_percent
      = (trainerLocationFeatures r).rainy_days_percent
    ∧ (predictorCalcFeatures r).max_dry_spell
      = (trainerLocationFeatures r).max_dry_spell := by
  refine ⟨rfl, rfl, ?_, rfl⟩
  show ((r.filter (fun x => decide (0 < x))).length : ℚ) / 12 * 100
      = if 0 < r.length
        then (((r.filter (fun x => decide (0 < x))).length : ℚ) / r.length) * 100
        else 0
  rw [h]
  norm_num

/-- Witness for C7's amended theorem at the 12-month example series given in
the predictor's own usage comment. -/
theorem c7_features_agree_witness :
    (predictorCalcFeatures [50, 40, 60, 80, 100, 20, 10, 5, 15, 40, 120, 90]).total_rainfall
      = (trainerLocationFeatures [50, 40, 60, 80, 100, 20, 10, 5, 15, 40, 120, 90]).total_rainfall
    ∧ (predictorCalcFeatures [50, 40, 60, 80, 100, 20, 10, 5, 15, 40, 120, 90]).mean_rainfall
      = (trainerLocationFeatures [50, 40, 60, 80, 100, 20, 10, 5, 15, 40, 120, 90]).mean_rainfall
    ∧ (predictorCalcFeatures [50, 40, 60, 80, 100, 20, 10, 5, 15, 40, 120, 90]).rainy_days_percent
      = (trainerLocationFeatures [50, 40, 60, 80, 100, 20, 10, 5, 15, 40, 120, 90]).rainy_days_percent
    ∧ (predictorCalcFeatures [50, 40, 60, 80, 100, 20, 10, 5, 15, 40, 120, 90]).max_dry_spell
      = (trainerLocationFeatures [50, 40, 60, 80, 100, 20, 10, 5, 15, 40, 120, 90]).max_dry_spell :=
  c7_features_agree [50, 40, 60, 80, 100, 20, 10, 5, 15, 40, 120, 90] rfl

/-- C6 (code bug): `_prepare_features` silently substitutes `0.0` for any
expected feature name the computed dictionary lacks — it has no failure
path at all.  On the example series from the predictor's own usage comment,
the names `mean_rainy_day_intensity`, `avg_dry_spell` and
`dry_spell_frequency` — all members of the trainer's selected feature list,
hence of a persisted bundle's expected features — are absent from
`_calculate_features`' dictionary, and the prepared vector holds `0.0` in
their positions instead of an error. -/
theorem c6_missing_features_silently_zeroed :
    (predictorFeatureDict [50, 40, 60, 80, 100, 20, 10, 5, 15, 40, 120, 90]).lookup
        "mean_rainy_day_intensity" = none
    ∧ (predictorFeatureDict [50, 40, 60, 80, 100, 20, 10, 5, 15, 40, 120, 90]).lookup
        "avg_dry_spell" = none
    ∧ (predictorFeatureDict [50, 40, 60, 80, 100, 20, 10, 5, 15, 40, 120, 90]).lookup
        "dry_spell_frequency" = none
    ∧ "mean_rainy_day_intensity" ∈ select_features_names
    ∧ "avg_dry_spell" ∈ select_features_names
    ∧ "dry_spell_frequency" ∈ select_features_names
    ∧ prepare_features (predictorFeatureDict [50, 40, 60, 80, 100, 20, 10, 5, 15, 40, 120, 90])
        ["mean_rainy_day_intensity", "avg_dry_spell", "dry_spell_frequency"]
      = [FVal.q 0, FVal.q 0, FVal.q 0] := by
  refine ⟨?_, ?_, ?_, ?_, ?_, ?_, ?_⟩ <;> decide

end Machakos
